import Mathlib

/-
  Verification of the multi-account broadcast engine and credential
  lifecycle manager of the Calendar_bot worker.

  Shallow embedding conventions:
  * Machine strings stay Lean String; byte arrays are List Nat.
  * Base64 transport (btoa/atob in the source) is a bijection between a
    byte array and its base64 string, so an encrypted blob is identified
    with the byte list it encodes.
  * The platform AES-GCM cipher (crypto.subtle) and the HMAC primitive are
    external collaborators; they enter as function parameters, and the
    authenticated-encryption laws appear as explicit hypotheses on the
    theorems that need them.
  * Cloudflare KV is an association list keyed by the structured key
    components (the source keys are colon-joined component strings such as
    gconn:chatId:googleSub; ids in this system are colon-free, so prefix
    listing is component filtering).
  * Asynchronous external calls (fetch) are modelled by passing the HTTP
    response each call would observe as a parameter (an oracle indexed by
    the account connection); thrown JS errors are Except.error.
  * ISO timestamp strings are epoch instants (Int), which preserves
    equality and ordering, the only operations the source applies to them.
-/

/-- Byte strings: the model of Uint8Array contents. -/
abbrev Bytes := List Nat

/-- JavaScript coercion `s || null`: the empty string is falsy. -/
def jsOrNull : Option String → Option String
  | none => none
  | some s => if s = "" then none else some s

/-- JavaScript substring test String.prototype.includes. -/
def strIncludes (s pat : String) : Bool :=
  decide (pat.toList <:+: s.toList)

/-- Cloudflare KV get on an association-list store. -/
def kvGet {κ α : Type} [DecidableEq κ] : List (κ × α) → κ → Option α
  | [], _ => none
  | e :: rest, k => if e.1 = k then some e.2 else kvGet rest k

/-- Cloudflare KV put: overwrite the value at the key when present,
otherwise append a fresh entry. -/
def kvPut {κ α : Type} [DecidableEq κ] : List (κ × α) → κ → α → List (κ × α)
  | [], k, v => [(k, v)]
  | e :: rest, k, v => if e.1 = k then (k, v) :: rest else e :: kvPut rest k v

/-- Cloudflare KV delete: remove every entry at the key. -/
def kvDel {κ α : Type} [DecidableEq κ] (s : List (κ × α)) (k : κ) : List (κ × α) :=
  s.filter (fun e => decide (¬ e.1 = k))

/-- Worker environment: the byte encoding of the configured symmetric key
material (env.ENCRYPTION_KEY with its hard-coded fallback already applied)
and the OAuth state secret (OAUTH_STATE_SECRET fallback chain applied). -/
structure Env where
  keyMaterial : Bytes
  stateSecret : String
deriving DecidableEq

/-- The AES-256-GCM key the worker imports: keyMaterial.slice(0, 32). -/
def aesKey (env : Env) : Bytes :=
  env.keyMaterial.take 32

/-- persistence.js encryptToken: draw a fresh 12-byte IV, AES-GCM-encrypt
the plaintext under the first 32 bytes of the key material and return
IV ++ ciphertext (the source base64-encodes this byte string for storage;
see the base64 convention above). The platform cipher aeadEnc and the
random IV are parameters. -/
def encryptToken (aeadEnc : Bytes → Bytes → Bytes → Bytes) (env : Env)
    (iv : Bytes) (token : Bytes) : Bytes :=
  iv ++ aeadEnc (aesKey env) iv token

/-- persistence.js decryptToken: split the first 12 bytes off as the IV and
AES-GCM-decrypt the remainder; the platform cipher throws on an inauthentic
ciphertext, modelled by aeadDec returning none. -/
def decryptToken (aeadDec : Bytes → Bytes → Bytes → Option Bytes) (env : Env)
    (blob : Bytes) : Option Bytes :=
  aeadDec (aesKey env) (blob.take 12) (blob.drop 12)

/-- Toy authenticated cipher witnessing that the assumed cipher laws are
satisfiable: the ciphertext is key ++ iv ++ plaintext, and decryption
checks that prefix. -/
def toyEnc (k iv p : Bytes) : Bytes := k ++ iv ++ p

/-- Decryption for the toy cipher: succeed exactly on authentic toyEnc
outputs. -/
def toyDec (k iv c : Bytes) : Option Bytes :=
  if c.take (k.length + iv.length) = k ++ iv then
    some (c.drop (k.length + iv.length))
  else
    none

theorem toyDec_toyEnc (k iv p : Bytes) : toyDec k iv (toyEnc k iv p) = some p := by
  unfold toyDec toyEnc
  rw [List.take_left' (by simp), List.drop_left' (by simp)]
  simp

theorem toyDec_authentic (k iv c p : Bytes) (h : toyDec k iv c = some p) :
    c = toyEnc k iv p := by
  unfold toyDec at h
  by_cases hc : c.take (k.length + iv.length) = k ++ iv
  · simp only [hc, if_true, Option.some.injEq] at h
    subst h
    unfold toyEnc
    rw [← hc]
    exact (List.take_append_drop _ c).symm
  · simp [hc] at h

/-- C4: for every plaintext x, decryptToken (encryptToken x) returns x; and
decryptToken returns a plaintext only for blobs that are authentic
encryptions under the worker key (the observed IV followed by a valid
AES-GCM ciphertext of that plaintext) — every tampered blob or blob built
under a different key fails closed. -/
theorem decryptToken_encryptToken_roundtrip_and_fail_closed
    (aeadEnc : Bytes → Bytes → Bytes → Bytes)
    (aeadDec : Bytes → Bytes → Bytes → Option Bytes)
    (hround : ∀ k iv p, aeadDec k iv (aeadEnc k iv p) = some p)
    (hauth : ∀ k iv c p, aeadDec k iv c = some p → c = aeadEnc k iv p)
    (env : Env) (iv : Bytes) (hiv : iv.length = 12) (x : Bytes) :
    decryptToken aeadDec env (encryptToken aeadEnc env iv x) = some x ∧
    ∀ c p, decryptToken aeadDec env c = some p →
      c = encryptToken aeadEnc env (c.take 12) p := by
  constructor
  · unfold decryptToken encryptToken
    rw [List.take_left' hiv, List.drop_left' hiv]
    exact hround _ _ _
  · intro c p h
    unfold decryptToken at h
    have hdrop := hauth _ _ _ _ h
    unfold encryptToken
    rw [← hdrop]
    exact (List.take_append_drop 12 c).symm

/-- Shared concrete environment for witnesses. -/
def envW : Env :=
  { keyMaterial := [1, 2, 3], stateSecret := "secretW" }

/-- Shared concrete 12-byte IV for witnesses. -/
def ivW : Bytes := List.replicate 12 0

/-- C4 witness: the round trip and the fail-closed direction evaluated on a
concrete plaintext under the toy cipher. -/
theorem decryptToken_encryptToken_roundtrip_witness :
    decryptToken toyDec envW (encryptToken toyEnc envW ivW [7, 7]) = some [7, 7] :=
  (decryptToken_encryptToken_roundtrip_and_fail_closed toyEnc toyDec
    toyDec_toyEnc toyDec_authentic envW ivW (by decide) [7, 7]).1

/-- JavaScript String.prototype.toLowerCase (ASCII suffices for the emails
the worker handles). -/
def strToLower (s : String) : String :=
  s.map Char.toLower

/-- One stored AccountConnection record, the JSON value at key
gconn:chatId:googleSub. access_token and expires_at are absent (none) until
the first refresh writes them. -/
structure ConnRec where
  chat_id : String
  google_sub : String
  google_email : String
  refresh_token_enc : Bytes
  scopes : String
  revoked : Bool
  connected_by_telegram_user_id : String
  created_at : Int
  updated_at : Int
  access_token : Option String
  expires_at : Option Int
deriving DecidableEq

/-- Connection store: KV restricted to the gconn: prefix, keyed by
(chatId, googleSub). -/
abbrev ConnStore := List ((String × String) × ConnRec)

/-- persistence.js storeGoogleConnection: encrypt the refresh token and put
a fresh record at gconn:chatId:googleSub (email lower-cased, revoked false,
no cached access token); KV put upserts. -/
def storeGoogleConnection (aeadEnc : Bytes → Bytes → Bytes → Bytes) (env : Env)
    (store : ConnStore) (chatId googleSub googleEmail : String)
    (refreshToken : Bytes) (scopes connectedBy : String) (iv : Bytes)
    (now : Int) : ConnStore :=
  kvPut store (chatId, googleSub)
    { chat_id := chatId
      google_sub := googleSub
      google_email := strToLower googleEmail
      refresh_token_enc := encryptToken aeadEnc env iv refreshToken
      scopes := scopes
      revoked := false
      connected_by_telegram_user_id := connectedBy
      created_at := now
      updated_at := now
      access_token := none
      expires_at := none }

/-- A connection as handed to callers of getWorkspaceConnections and
getGoogleConnection: the stored record with refresh_token decrypted in
place and refresh_token_enc removed. -/
structure DecConn where
  chat_id : String
  google_sub : String
  google_email : String
  refresh_token : Bytes
  scopes : String
  revoked : Bool
  connected_by_telegram_user_id : String
  created_at : Int
  updated_at : Int
  access_token : Option String
  expires_at : Option Int
deriving DecidableEq

/-- Decorate a stored record with its decrypted refresh token. -/
def decorate (r : ConnRec) (tok : Bytes) : DecConn :=
  { chat_id := r.chat_id
    google_sub := r.google_sub
    google_email := r.google_email
    refresh_token := tok
    scopes := r.scopes
    revoked := r.revoked
    connected_by_telegram_user_id := r.connected_by_telegram_user_id
    created_at := r.created_at
    updated_at := r.updated_at
    access_token := r.access_token
    expires_at := r.expires_at }

/-- The per-record body of the getWorkspaceConnections loop: keep a listed
record when it is not revoked and its refresh token decrypts; a decryption
failure is caught, logged and skips only that record. -/
def listBody (aeadDec : Bytes → Bytes → Bytes → Option Bytes) (env : Env)
    (e : (String × String) × ConnRec) : Option DecConn :=
  if e.2.revoked then none
  else
    match decryptToken aeadDec env e.2.refresh_token_enc with
    | some tok => some (decorate e.2 tok)
    | none => none

/-- persistence.js getWorkspaceConnections: list the gconn:chatId: prefix
and keep every non-revoked record whose refresh token decrypts, decrypted
on the fly. -/
def getWorkspaceConnections (aeadDec : Bytes → Bytes → Bytes → Option Bytes)
    (env : Env) (store : ConnStore) (chatId : String) : List DecConn :=
  (store.filter (fun e => decide (e.1.1 = chatId))).filterMap (listBody aeadDec env)

/-- persistence.js getGoogleConnection: fetch one record; null when absent
or revoked or when its refresh token fails to decrypt. -/
def getGoogleConnection (aeadDec : Bytes → Bytes → Bytes → Option Bytes)
    (env : Env) (store : ConnStore) (chatId googleSub : String) : Option DecConn :=
  match kvGet store (chatId, googleSub) with
  | none => none
  | some r =>
    if r.revoked then none
    else
      match decryptToken aeadDec env r.refresh_token_enc with
      | some tok => some (decorate r tok)
      | none => none

/-- persistence.js updateConnectionAccessToken: throws when the record is
absent; otherwise rewrites the record with the new access_token, expires_at
and updated_at, every other field taken from the existing record. -/
def updateConnectionAccessToken (store : ConnStore) (chatId googleSub : String)
    (accessToken : String) (expiresAt : Int) (now : Int) :
    Except String ConnStore :=
  match kvGet store (chatId, googleSub) with
  | none => Except.error ("Connection not found: gconn:" ++ chatId ++ ":" ++ googleSub)
  | some d =>
    Except.ok (kvPut store (chatId, googleSub)
      { d with access_token := some accessToken, expires_at := some expiresAt, updated_at := now })

/-- persistence.js revokeGoogleConnection: no-op when the record is absent,
otherwise set revoked := true and bump updated_at. -/
def revokeGoogleConnection (store : ConnStore) (chatId googleSub : String)
    (now : Int) : ConnStore :=
  match kvGet store (chatId, googleSub) with
  | none => store
  | some d => kvPut store (chatId, googleSub) { d with revoked := true, updated_at := now }

/-- One stored EventMapping record, the JSON value at key
emap:chatId:botEventUid:googleSub. -/
structure MapRec where
  chat_id : String
  bot_event_uid : String
  google_sub : String
  google_event_id : String
  created_at : Int
  updated_at : Int
deriving DecidableEq

/-- Event-mapping store: KV restricted to the emap: prefix, keyed by
(chatId, botEventUid, googleSub). -/
abbrev MapStore := List ((String × String × String) × MapRec)

/-- persistence.js storeEventMapping: upsert the mapping record for this
(chat, uid, account) triple. -/
def storeEventMapping (store : MapStore)
    (chatId botEventUid googleSub googleEventId : String) (now : Int) : MapStore :=
  kvPut store (chatId, botEventUid, googleSub)
    { chat_id := chatId
      bot_event_uid := botEventUid
      google_sub := googleSub
      google_event_id := googleEventId
      created_at := now
      updated_at := now }

/-- The (google_sub, google_event_id) pair getEventMappings returns per
record. -/
structure Mapping where
  google_sub : String
  google_event_id : String
deriving DecidableEq

/-- persistence.js getEventMappings: list the emap:chatId:botEventUid:
prefix and project each record to its account and native event id. -/
def getEventMappings (store : MapStore) (chatId botEventUid : String) : List Mapping :=
  (store.filter (fun e => decide (e.1.1 = chatId ∧ e.1.2.1 = botEventUid))).map
    (fun e => { google_sub := e.2.google_sub, google_event_id := e.2.google_event_id })

/-- persistence.js deleteEventMapping: with an account, delete that one
mapping; without, delete every mapping of the uid. -/
def deleteEventMapping (store : MapStore) (chatId botEventUid : String)
    (googleSub : Option String) : MapStore :=
  match googleSub with
  | some sub => kvDel store (chatId, botEventUid, sub)
  | none => store.filter (fun e => decide (¬ (e.1.1 = chatId ∧ e.1.2.1 = botEventUid)))

/-- persistence.js deleteEventMappingsForAccount: scan the whole workspace
prefix emap:chatId: and delete every record whose stored google_sub matches
the disconnected account. -/
def deleteEventMappingsForAccount (store : MapStore) (chatId googleSub : String) : MapStore :=
  store.filter (fun e => decide (¬ (e.1.1 = chatId ∧ e.2.google_sub = googleSub)))

/-- An HTTP response of the Google token endpoint as refreshAccessToken
observes it: the fetch status plus the parsed token payload when ok. -/
structure RefreshResp where
  ok : Bool
  status : Nat
  body : String
  access_token : String
  expires_in : Int
deriving DecidableEq

/-- The value refreshAccessToken returns on success. -/
structure RefreshedTok where
  access_token : String
  expires_at : Int
deriving DecidableEq

/-- oauth.js refreshAccessToken: on HTTP success return the new token with
expires_at = now + expires_in * 1000; an HTTP 400 means the refresh token
was revoked and returns null (re-auth signal); any other HTTP error is
thrown. The endpoint response is a parameter. -/
def refreshAccessToken (resp : RefreshResp) (now : Int) :
    Except String (Option RefreshedTok) :=
  if resp.ok then
    Except.ok (some { access_token := resp.access_token
                      expires_at := now + resp.expires_in * 1000 })
  else if resp.status = 400 then
    Except.ok none
  else
    Except.error ("Token refresh failed: " ++ resp.body)

/-- The refresh predicate of getValidAccessTokenForConnection:
connection.expires_at && now >= connection.expires_at - 60000 (JavaScript
truthiness: an absent or zero expires_at is falsy). -/
def refreshNeeded (conn : DecConn) (now : Int) : Bool :=
  match conn.expires_at with
  | none => false
  | some e => decide (e ≠ 0) && decide (e - 60000 ≤ now)

/-- oauth.js getValidAccessTokenForConnection: when expires_at is truthy
and within 60 s of now, refresh; a null refresh outcome becomes null, a
successful one is persisted through updateConnectionAccessToken and
returned. Otherwise return the cached access_token (JavaScript || null).
Returns the token outcome together with the connection store as left by
the call. -/
def getValidAccessTokenForConnection (resp : RefreshResp) (store : ConnStore)
    (conn : DecConn) (now : Int) : Except String (Option String × ConnStore) :=
  if refreshNeeded conn now then
    match refreshAccessToken resp now with
    | Except.error e => Except.error e
    | Except.ok none => Except.ok (none, store)
    | Except.ok (some t) =>
      match updateConnectionAccessToken store conn.chat_id conn.google_sub
          t.access_token t.expires_at now with
      | Except.error e => Except.error e
      | Except.ok store2 => Except.ok (some t.access_token, store2)
  else
    Except.ok (jsOrNull conn.access_token, store)

/-- An HTTP response of the Google Calendar API as the gas.js client
observes it: fetch status plus the fields of the parsed JSON body the
client reads. -/
structure CalResp where
  ok : Bool
  status : Nat
  body : String
  eventId : String
  link : String
deriving DecidableEq

/-- The object gas.js createEvent returns: always ok = true with the
created native event id. -/
structure CreateOk where
  ok : Bool
  eventId : String
  link : String
deriving DecidableEq

/-- gas.js createEvent: a non-OK response throws Calendar API error with
the response text; otherwise return ok plus the created id. -/
def createEvent (resp : CalResp) : Except String CreateOk :=
  if resp.ok then
    Except.ok { ok := true, eventId := resp.eventId, link := resp.link }
  else
    Except.error ("Calendar API error: " ++ resp.body)

/-- The object gas.js updateEvent returns. -/
structure UpdateOk where
  ok : Bool
  eventId : String
deriving DecidableEq

/-- gas.js updateEvent: a non-OK response throws Calendar API error;
otherwise return ok. -/
def updateEvent (resp : CalResp) : Except String UpdateOk :=
  if resp.ok then
    Except.ok { ok := true, eventId := resp.eventId }
  else
    Except.error ("Calendar API error: " ++ resp.body)

/-- The object gas.js deleteEvent returns. -/
structure DeleteOk where
  ok : Bool
deriving DecidableEq

/-- gas.js deleteEvent: throw Calendar API error on a non-OK response
unless the status is 410 (already deleted); otherwise return ok. -/
def deleteEvent (resp : CalResp) : Except String DeleteOk :=
  if !resp.ok && decide (resp.status ≠ 410) then
    Except.error ("Calendar API error: " ++ resp.body)
  else
    Except.ok { ok := true }

/-- One entry of a broadcast successes array. -/
structure SuccessEntry where
  email : String
  eventId : Option String
  note : Option String
deriving DecidableEq

/-- One entry of a broadcast failures array. -/
structure FailureEntry where
  email : String
  reason : String
  details : String
deriving DecidableEq

/-- The aggregate scoreboard every broadcast returns. -/
structure BroadcastResults where
  successes : List SuccessEntry
  failures : List FailureEntry
  totalAccounts : Nat
deriving DecidableEq

/-- One per-account iteration of broadcastCreateEvent (the body of its
try/catch): resolve a token, refreshing if needed — a null token is
recorded as Token refresh failed; call the remote create and store the
mapping on success; any error thrown inside the block is caught and
recorded as an Exception failure. Returns the outcome plus both stores as
left by the iteration. -/
def createStep (refreshO : DecConn → RefreshResp) (createO : DecConn → CalResp)
    (conn : DecConn) (chatId botEventUid : String) (now : Int)
    (cs : ConnStore) (ms : MapStore) :
    (SuccessEntry ⊕ FailureEntry) × ConnStore × MapStore :=
  match getValidAccessTokenForConnection (refreshO conn) cs conn now with
  | Except.error msg =>
    (Sum.inr { email := conn.google_email, reason := "Exception", details := msg }, cs, ms)
  | Except.ok (none, cs2) =>
    (Sum.inr { email := conn.google_email, reason := "Token refresh failed"
               details := "Please reconnect this account" }, cs2, ms)
  | Except.ok (some _, cs2) =>
    match createEvent (createO conn) with
    | Except.error msg =>
      (Sum.inr { email := conn.google_email, reason := "Exception", details := msg }, cs2, ms)
    | Except.ok res =>
      if res.ok then
        (Sum.inl { email := conn.google_email, eventId := some res.eventId, note := none },
         cs2, storeEventMapping ms chatId botEventUid conn.google_sub res.eventId now)
      else
        (Sum.inr { email := conn.google_email, reason := "Creation failed"
                   details := "Unknown error" }, cs2, ms)

/-- Accumulated output of a broadcast fan-out loop. -/
structure LoopOut where
  successes : List SuccessEntry
  failures : List FailureEntry
  connStore : ConnStore
  mapStore : MapStore
deriving DecidableEq

/-- The fan-out loop of broadcastCreateEvent over the active connections. -/
def createLoop (refreshO : DecConn → RefreshResp) (createO : DecConn → CalResp)
    (conns : List DecConn) (chatId botEventUid : String) (now : Int)
    (cs : ConnStore) (ms : MapStore) : LoopOut :=
  match conns with
  | [] => { successes := [], failures := [], connStore := cs, mapStore := ms }
  | c :: rest =>
    let r := createStep refreshO createO c chatId botEventUid now cs ms
    let t := createLoop refreshO createO rest chatId botEventUid now r.2.1 r.2.2
    match r.1 with
    | Sum.inl s => { t with successes := s :: t.successes }
    | Sum.inr f => { t with failures := f :: t.failures }

/-- gas.js broadcastCreateEvent: throw only when the workspace has no
active connections; otherwise fan out per account and return the
scoreboard with both stores. -/
def broadcastCreateEvent (aeadDec : Bytes → Bytes → Bytes → Option Bytes)
    (env : Env) (refreshO : DecConn → RefreshResp) (createO : DecConn → CalResp)
    (cs : ConnStore) (ms : MapStore) (chatId botEventUid : String) (now : Int) :
    Except String (BroadcastResults × ConnStore × MapStore) :=
  let conns := getWorkspaceConnections aeadDec env cs chatId
  if conns.length = 0 then
    Except.error "No Google accounts connected to this workspace"
  else
    let r := createLoop refreshO createO conns chatId botEventUid now cs ms
    Except.ok ({ successes := r.successes, failures := r.failures
                 totalAccounts := conns.length }, r.connStore, r.mapStore)

/-- One per-account iteration of broadcastUpdateEvent over a mapping: a
missing or revoked (or undecryptable) connection is an Account
disconnected failure; a null token is a Token refresh failed failure; the
remote update governs the rest; thrown errors are caught as Exception
failures. -/
def updateStep (aeadDec : Bytes → Bytes → Bytes → Option Bytes) (env : Env)
    (refreshO : DecConn → RefreshResp) (updateO : DecConn → CalResp)
    (m : Mapping) (chatId : String) (now : Int) (cs : ConnStore) :
    (SuccessEntry ⊕ FailureEntry) × ConnStore :=
  match getGoogleConnection aeadDec env cs chatId m.google_sub with
  | none =>
    (Sum.inr { email := "(disconnected: " ++ m.google_sub ++ ")"
               reason := "Account disconnected"
               details := "Connection no longer active" }, cs)
  | some conn =>
    match getValidAccessTokenForConnection (refreshO conn) cs conn now with
    | Except.error msg =>
      (Sum.inr { email := "(" ++ m.google_sub ++ ")", reason := "Exception"
                 details := msg }, cs)
    | Except.ok (none, cs2) =>
      (Sum.inr { email := conn.google_email, reason := "Token refresh failed"
                 details := "Please reconnect this account" }, cs2)
    | Except.ok (some _, cs2) =>
      match updateEvent (updateO conn) with
      | Except.error msg =>
        (Sum.inr { email := "(" ++ m.google_sub ++ ")", reason := "Exception"
                   details := msg }, cs2)
      | Except.ok res =>
        if res.ok then
          (Sum.inl { email := conn.google_email, eventId := some m.google_event_id
                     note := none }, cs2)
        else
          (Sum.inr { email := conn.google_email, reason := "Update failed"
                     details := "Unknown error" }, cs2)

/-- Accumulated output of the update fan-out loop (the mapping store is
never written by an update broadcast). -/
structure LoopOutU where
  successes : List SuccessEntry
  failures : List FailureEntry
  connStore : ConnStore
deriving DecidableEq

/-- The fan-out loop of broadcastUpdateEvent over the uid's mappings. -/
def updateLoop (aeadDec : Bytes → Bytes → Bytes → Option Bytes) (env : Env)
    (refreshO : DecConn → RefreshResp) (updateO : DecConn → CalResp)
    (ms : List Mapping) (chatId : String) (now : Int) (cs : ConnStore) : LoopOutU :=
  match ms with
  | [] => { successes := [], failures := [], connStore := cs }
  | m :: rest =>
    let r := updateStep aeadDec env refreshO updateO m chatId now cs
    let t := updateLoop aeadDec env refreshO updateO rest chatId now r.2
    match r.1 with
    | Sum.inl s => { t with successes := s :: t.successes }
    | Sum.inr f => { t with failures := f :: t.failures }

/-- gas.js broadcastUpdateEvent: throw only when the uid has no mappings;
otherwise fan out per mapping and return the scoreboard. -/
def broadcastUpdateEvent (aeadDec : Bytes → Bytes → Bytes → Option Bytes)
    (env : Env) (refreshO : DecConn → RefreshResp) (updateO : DecConn → CalResp)
    (cs : ConnStore) (ms : MapStore) (chatId botEventUid : String) (now : Int) :
    Except String (BroadcastResults × ConnStore) :=
  let mappings := getEventMappings ms chatId botEventUid
  if mappings.length = 0 then
    Except.error "Event not found or already deleted"
  else
    let r := updateLoop aeadDec env refreshO updateO mappings chatId now cs
    Except.ok ({ successes := r.successes, failures := r.failures
                 totalAccounts := mappings.length }, r.connStore)

/-- The catch block of broadcastDeleteEvent: an error whose message
contains 404 or 410 is treated as already deleted (success, mapping
removed); anything else is an Exception failure. -/
def deleteCatch (msg : String) (m : Mapping) (chatId botEventUid : String)
    (cs : ConnStore) (ms : MapStore) :
    (SuccessEntry ⊕ FailureEntry) × ConnStore × MapStore :=
  if strIncludes msg "404" || strIncludes msg "410" then
    (Sum.inl { email := "(" ++ m.google_sub ++ ")", eventId := none
               note := some "Already deleted" },
     cs, deleteEventMapping ms chatId botEventUid (some m.google_sub))
  else
    (Sum.inr { email := "(" ++ m.google_sub ++ ")", reason := "Exception"
               details := msg }, cs, ms)

/-- One per-account iteration of broadcastDeleteEvent over a mapping: a
missing connection still removes the mapping and counts as success; a null
token is a failure that keeps the mapping; the remote delete governs the
rest, with the catch block applying the 404/410 already-deleted rule. -/
def deleteStep (aeadDec : Bytes → Bytes → Bytes → Option Bytes) (env : Env)
    (refreshO : DecConn → RefreshResp) (deleteO : DecConn → CalResp)
    (m : Mapping) (chatId botEventUid : String) (now : Int)
    (cs : ConnStore) (ms : MapStore) :
    (SuccessEntry ⊕ FailureEntry) × ConnStore × MapStore :=
  match getGoogleConnection aeadDec env cs chatId m.google_sub with
  | none =>
    (Sum.inl { email := "(disconnected: " ++ m.google_sub ++ ")", eventId := none
               note := some "Mapping removed (account disconnected)" },
     cs, deleteEventMapping ms chatId botEventUid (some m.google_sub))
  | some conn =>
    match getValidAccessTokenForConnection (refreshO conn) cs conn now with
    | Except.error msg => deleteCatch msg m chatId botEventUid cs ms
    | Except.ok (none, cs2) =>
      (Sum.inr { email := conn.google_email, reason := "Token refresh failed"
                 details := "Mapping will remain until reconnected" }, cs2, ms)
    | Except.ok (some _, cs2) =>
      match deleteEvent (deleteO conn) with
      | Except.error msg => deleteCatch msg m chatId botEventUid cs2 ms
      | Except.ok res =>
        if res.ok then
          (Sum.inl { email := conn.google_email, eventId := some m.google_event_id
                     note := none },
           cs2, deleteEventMapping ms chatId botEventUid (some m.google_sub))
        else
          (Sum.inr { email := conn.google_email, reason := "Deletion failed"
                     details := "Unknown error" }, cs2, ms)

/-- The fan-out loop of broadcastDeleteEvent over the uid's mappings. -/
def deleteLoop (aeadDec : Bytes → Bytes → Bytes → Option Bytes) (env : Env)
    (refreshO : DecConn → RefreshResp) (deleteO : DecConn → CalResp)
    (mappings : List Mapping) (chatId botEventUid : String) (now : Int)
    (cs : ConnStore) (ms : MapStore) : LoopOut :=
  match mappings with
  | [] => { successes := [], failures := [], connStore := cs, mapStore := ms }
  | m :: rest =>
    let r := deleteStep aeadDec env refreshO deleteO m chatId botEventUid now cs ms
    let t := deleteLoop aeadDec env refreshO deleteO rest chatId botEventUid now r.2.1 r.2.2
    match r.1 with
    | Sum.inl s => { t with successes := s :: t.successes }
    | Sum.inr f => { t with failures := f :: t.failures }

/-- gas.js broadcastDeleteEvent: throw only when the uid has no mappings;
otherwise fan out per mapping and return the scoreboard with both
stores. -/
def broadcastDeleteEvent (aeadDec : Bytes → Bytes → Bytes → Option Bytes)
    (env : Env) (refreshO : DecConn → RefreshResp) (deleteO : DecConn → CalResp)
    (cs : ConnStore) (ms : MapStore) (chatId botEventUid : String) (now : Int) :
    Except String (BroadcastResults × ConnStore × MapStore) :=
  let mappings := getEventMappings ms chatId botEventUid
  if mappings.length = 0 then
    Except.error "Event not found or already deleted"
  else
    let r := deleteLoop aeadDec env refreshO deleteO mappings chatId botEventUid now cs ms
    Except.ok ({ successes := r.successes, failures := r.failures
                 totalAccounts := mappings.length }, r.connStore, r.mapStore)

/-- Character-level worker for jsSplit, structurally recursive over the
remaining characters with the current field accumulated in reverse. -/
def splitCharsAux (sep : Char) : List Char → List Char → List (List Char)
  | [], acc => [acc.reverse]
  | c :: cs, acc =>
    if c = sep then acc.reverse :: splitCharsAux sep cs []
    else splitCharsAux sep cs (c :: acc)

/-- JavaScript String.prototype.split with a single-character separator. -/
def jsSplit (sep : Char) (s : String) : List String :=
  (splitCharsAux sep s.toList []).map List.asString

/-- The data parseAndVerifyState returns (the source additionally runs
parseInt on the first two fields; the claims need only the raw fields). -/
structure StateData where
  chatId : String
  initiatedBy : String
  chatType : String
  nonce : String
deriving DecidableEq

/-- The existence-marker record at KV key oauth_state:state. -/
structure StateRec where
  createdAt : Int
deriving DecidableEq

/-- OAuth handshake marker store: KV restricted to the oauth_state: prefix,
keyed by the state token itself. -/
abbrev StateStore := List (String × StateRec)

/-- oauth.js generateOAuthUrl: draw a random nonce (a parameter), build the
payload chatId:initiatedBy:chatType:nonce, HMAC-sign it under the state
secret and return the state token base64(payload:signature) (base64
identified with its content). The function performs no KV write — the
returned marker store is the input store untouched, mirroring that no
oauth_state existence marker is ever recorded. -/
def generateOAuthUrl (hmac : String → String → String) (env : Env)
    (chatId initiatedBy chatType nonce : String) (store : StateStore) :
    String × StateStore :=
  let payload := chatId ++ ":" ++ initiatedBy ++ ":" ++ chatType ++ ":" ++ nonce
  (payload ++ ":" ++ hmac env.stateSecret payload, store)

/-- oauth.js parseAndVerifyState: base64-decode, split on colon, require at
least five parts, rebuild the payload from the first four and compare the
HMAC recomputed under the secret with the fifth; null on any failure. -/
def parseAndVerifyState (hmac : String → String → String)
    (state secret : String) : Option StateData :=
  match jsSplit ':' state with
  | c :: i :: t :: n :: s :: _ =>
    let payload := c ++ ":" ++ i ++ ":" ++ t ++ ":" ++ n
    if hmac secret payload = s then
      some { chatId := c, initiatedBy := i, chatType := t, nonce := n }
    else
      none
  | _ => none

/-- The state-verification prefix of oauth.js handleOAuthCallback: verify
the HMAC-signed state, require the oauth_state existence marker in KV,
reject markers older than 10 minutes (the marker is deleted in that branch
too; an error outcome discards the store), and delete the marker before
proceeding (single use). The later steps (code exchange, connection
storage) are beyond the handshake claims. -/
def verifyOAuthCallbackState (hmac : String → String → String) (env : Env)
    (store : StateStore) (state : String) (now : Int) :
    Except String (StateData × StateStore) :=
  match parseAndVerifyState hmac state env.stateSecret with
  | none => Except.error "Invalid or tampered authorization state"
  | some sd =>
    match kvGet store state with
    | none => Except.error "Invalid or expired authorization state"
    | some r =>
      if now - r.createdAt > 600000 then
        Except.error "State expired"
      else
        Except.ok (sd, kvDel store state)

theorem kvGet_kvPut_self {κ α : Type} [DecidableEq κ] (s : List (κ × α)) (k : κ) (v : α) :
    kvGet (kvPut s k v) k = some v := by
  induction s with
  | nil => simp [kvPut, kvGet]
  | cons e rest ih =>
    by_cases h : e.1 = k
    · simp [kvPut, h, kvGet]
    · simp [kvPut, h, kvGet, ih]

theorem kvGet_kvPut_ne {κ α : Type} [DecidableEq κ] (s : List (κ × α)) (k : κ) (v : α)
    (k2 : κ) (h : k2 ≠ k) : kvGet (kvPut s k v) k2 = kvGet s k2 := by
  have hne : ¬ k = k2 := fun he => h he.symm
  induction s with
  | nil => simp [kvPut, kvGet, hne]
  | cons e rest ih =>
    by_cases he : e.1 = k
    · subst he
      simp [kvPut, kvGet, hne]
    · simp [kvPut, he, kvGet, ih]

theorem kvPut_map_fst {κ α : Type} [DecidableEq κ] (s : List (κ × α)) (k : κ) (v : α)
    (r : α) (h : kvGet s k = some r) :
    (kvPut s k v).map Prod.fst = s.map Prod.fst := by
  induction s with
  | nil => simp [kvGet] at h
  | cons e rest ih =>
    by_cases he : e.1 = k
    · simp [kvPut, he]
    · simp only [kvGet, he, if_false] at h
      simp [kvPut, he, ih h]

/-- C10: on an existing record, updateConnectionAccessToken rewrites only
access_token, expires_at and updated_at, preserving every other field and
every other key; on an absent record it throws Connection not found and
produces no store. -/
theorem updateConnectionAccessToken_frame (store : ConnStore)
    (chatId googleSub tok : String) (exp now : Int) :
    (∀ d, kvGet store (chatId, googleSub) = some d →
      ∃ s2, updateConnectionAccessToken store chatId googleSub tok exp now = Except.ok s2 ∧
        (∃ d2, kvGet s2 (chatId, googleSub) = some d2 ∧
          d2.access_token = some tok ∧ d2.expires_at = some exp ∧ d2.updated_at = now ∧
          d2.chat_id = d.chat_id ∧ d2.google_sub = d.google_sub ∧
          d2.google_email = d.google_email ∧
          d2.refresh_token_enc = d.refresh_token_enc ∧ d2.scopes = d.scopes ∧
          d2.revoked = d.revoked ∧
          d2.connected_by_telegram_user_id = d.connected_by_telegram_user_id ∧
          d2.created_at = d.created_at) ∧
        (∀ k2, k2 ≠ (chatId, googleSub) → kvGet s2 k2 = kvGet store k2)) ∧
    (kvGet store (chatId, googleSub) = none →
      updateConnectionAccessToken store chatId googleSub tok exp now
        = Except.error ("Connection not found: gconn:" ++ chatId ++ ":" ++ googleSub)) := by
  constructor
  · intro d hd
    refine ⟨kvPut store (chatId, googleSub)
      { d with access_token := some tok, expires_at := some exp, updated_at := now },
      ?_, ⟨_, kvGet_kvPut_self _ _ _, ?_⟩, ?_⟩
    · simp [updateConnectionAccessToken, hd]
    · simp
    · intro k2 hk2
      exact kvGet_kvPut_ne _ _ _ _ hk2
  · intro hd
    simp [updateConnectionAccessToken, hd]

/-- Shared concrete connection record for witnesses: the state a fresh
storeGoogleConnection leaves behind. -/
def connRecW : ConnRec :=
  { chat_id := "c1"
    google_sub := "s1"
    google_email := "ada@example.com"
    refresh_token_enc := encryptToken toyEnc envW ivW [4, 5]
    scopes := "calendar.events"
    revoked := false
    connected_by_telegram_user_id := "u1"
    created_at := 0
    updated_at := 0
    access_token := none
    expires_at := none }

/-- Shared concrete connection store for witnesses. -/
def csW : ConnStore := [(("c1", "s1"), connRecW)]

/-- C10 witness: the frame theorem applied to a concrete one-record store. -/
theorem updateConnectionAccessToken_frame_witness :
    ∃ s2, updateConnectionAccessToken csW "c1" "s1" "at9" 777 5 = Except.ok s2 ∧
      (∃ d2, kvGet s2 ("c1", "s1") = some d2 ∧
        d2.access_token = some "at9" ∧ d2.expires_at = some 777 ∧ d2.updated_at = 5 ∧
        d2.chat_id = connRecW.chat_id ∧ d2.google_sub = connRecW.google_sub ∧
        d2.google_email = connRecW.google_email ∧
        d2.refresh_token_enc = connRecW.refresh_token_enc ∧
        d2.scopes = connRecW.scopes ∧ d2.revoked = connRecW.revoked ∧
        d2.connected_by_telegram_user_id = connRecW.connected_by_telegram_user_id ∧
        d2.created_at = connRecW.created_at) ∧
      (∀ k2, k2 ≠ ("c1", "s1") → kvGet s2 k2 = kvGet csW k2) :=
  (updateConnectionAccessToken_frame csW "c1" "s1" "at9" 777 5).1 connRecW rfl

theorem filter_key_length {κ α : Type} (p : κ → Bool) :
    ∀ l₁ l₂ : List (κ × α), l₁.map Prod.fst = l₂.map Prod.fst →
      (l₁.filter (fun e => p e.1)).length = (l₂.filter (fun e => p e.1)).length := by
  intro l₁
  induction l₁ with
  | nil =>
    intro l₂ h
    cases l₂ with
    | nil => rfl
    | cons e2 r2 => simp at h
  | cons e r ih =>
    intro l₂ h
    cases l₂ with
    | nil => simp at h
    | cons e2 r2 =>
      simp only [List.map_cons, List.cons.injEq] at h
      obtain ⟨h1, h2⟩ := h
      simp only [List.filter_cons, ← h1]
      by_cases hp : p e.1
      · simp [hp, ih r2 h2]
      · simp [hp, ih r2 h2]

/-- C7: re-linking a (workspace, external account) pair that already has a
record upserts it: the workspace's stored connection count is unchanged and
the record's revoked flag is false afterwards. -/
theorem storeGoogleConnection_upsert (aeadEnc : Bytes → Bytes → Bytes → Bytes)
    (env : Env) (store : ConnStore) (chatId googleSub googleEmail : String)
    (rt : Bytes) (scopes connectedBy : String) (iv : Bytes) (now : Int)
    (r : ConnRec) (h : kvGet store (chatId, googleSub) = some r) :
    ((storeGoogleConnection aeadEnc env store chatId googleSub googleEmail rt
        scopes connectedBy iv now).filter (fun e => decide (e.1.1 = chatId))).length
      = (store.filter (fun e => decide (e.1.1 = chatId))).length ∧
    ∃ r2, kvGet (storeGoogleConnection aeadEnc env store chatId googleSub
        googleEmail rt scopes connectedBy iv now) (chatId, googleSub) = some r2 ∧
      r2.revoked = false := by
  constructor
  · exact filter_key_length (fun k => decide (k.1 = chatId)) _ _
      (kvPut_map_fst store (chatId, googleSub) _ r h)
  · exact ⟨_, kvGet_kvPut_self _ _ _, rfl⟩

/-- C7 witness: upserting the single stored record keeps the workspace at
one connection and clears revoked. -/
theorem storeGoogleConnection_upsert_witness :
    ((storeGoogleConnection toyEnc envW csW "c1" "s1" "Ada@Example.com" [9]
        "calendar.events" "u2" ivW 3).filter (fun e => decide (e.1.1 = "c1"))).length
      = (csW.filter (fun e => decide (e.1.1 = "c1"))).length ∧
    ∃ r2, kvGet (storeGoogleConnection toyEnc envW csW "c1" "s1" "Ada@Example.com" [9]
        "calendar.events" "u2" ivW 3) ("c1", "s1") = some r2 ∧
      r2.revoked = false :=
  storeGoogleConnection_upsert toyEnc envW csW "c1" "s1" "Ada@Example.com" [9]
    "calendar.events" "u2" ivW 3 connRecW rfl

theorem filter_filter_map_comm {α β : Type} (p q : α → Bool) (c : β → Bool)
    (f : α → β) (l : List α) (hpc : ∀ a, q a = true → p a = c (f a)) :
    ((l.filter p).filter q).map f = ((l.filter q).map f).filter c := by
  induction l with
  | nil => rfl
  | cons a r ih =>
    simp only [List.filter_filter] at ih
    by_cases hq : q a
    · have hp := hpc a hq
      by_cases hpa : p a
      · have hc : c (f a) = true := hp ▸ hpa
        simp [List.filter_cons, hq, hpa, hc, ih]
      · have hc : c (f a) = false := by
          rw [← hp]
          simpa using hpa
        simp [List.filter_cons, hq, hpa, hc, ih]
    · by_cases hpa : p a
      · simp [List.filter_cons, hq, hpa, ih]
      · simp [List.filter_cons, hq, hpa, ih]

theorem filter_filter_of_imp {α : Type} (p q : α → Bool) (l : List α)
    (h : ∀ a, q a = true → p a = true) :
    (l.filter p).filter q = l.filter q := by
  induction l with
  | nil => rfl
  | cons a r ih =>
    by_cases hq : q a
    · have hp := h a hq
      simp [List.filter_cons, hq, hp, ih]
    · by_cases hp : p a
      · simp [List.filter_cons, hq, hp, ih]
      · simp [List.filter_cons, hq, hp, ih]

/-- C9: cascade cleanup for a disconnected account removes exactly that
account's mappings across every logical event of the workspace: afterwards
every uid's mapping list is the old list with that account filtered out
(so the account never appears and other accounts are untouched), and other
workspaces' mapping lists are unchanged. -/
theorem deleteEventMappingsForAccount_cascade (store : MapStore) (chat sub : String) :
    (∀ uid, getEventMappings (deleteEventMappingsForAccount store chat sub) chat uid
        = (getEventMappings store chat uid).filter (fun m => decide (¬ m.google_sub = sub))) ∧
    (∀ uid m, m ∈ getEventMappings (deleteEventMappingsForAccount store chat sub) chat uid →
        ¬ m.google_sub = sub) ∧
    (∀ chat2 uid, chat2 ≠ chat →
        getEventMappings (deleteEventMappingsForAccount store chat sub) chat2 uid
          = getEventMappings store chat2 uid) := by
  have hmain : ∀ uid, getEventMappings (deleteEventMappingsForAccount store chat sub) chat uid
      = (getEventMappings store chat uid).filter (fun m => decide (¬ m.google_sub = sub)) := by
    intro uid
    unfold getEventMappings deleteEventMappingsForAccount
    apply filter_filter_map_comm
    intro e hq
    have hconj := of_decide_eq_true hq
    simp [hconj.1]
  refine ⟨hmain, ?_, ?_⟩
  · intro uid m hm
    rw [hmain uid] at hm
    have := (List.mem_filter.mp hm).2
    exact of_decide_eq_true this
  · intro chat2 uid hne
    unfold getEventMappings deleteEventMappingsForAccount
    rw [filter_filter_of_imp]
    intro e hq
    have hconj := of_decide_eq_true hq
    have : ¬ (e.1.1 = chat ∧ e.2.google_sub = sub) := by
      intro hcon
      exact hne (hconj.1 ▸ hcon.1.symm ▸ rfl)
    exact decide_eq_true this

/-- Shared concrete mapping store for witnesses: two events, two accounts. -/
def msW : MapStore :=
  [(("c1", "u1", "s1"),
    { chat_id := "c1", bot_event_uid := "u1", google_sub := "s1"
      google_event_id := "g1", created_at := 0, updated_at := 0 }),
   (("c1", "u1", "s2"),
    { chat_id := "c1", bot_event_uid := "u1", google_sub := "s2"
      google_event_id := "g2", created_at := 0, updated_at := 0 }),
   (("c1", "u2", "s1"),
    { chat_id := "c1", bot_event_uid := "u2", google_sub := "s1"
      google_event_id := "g3", created_at := 0, updated_at := 0 })]

/-- C9 witness: the cascade theorem applied to a concrete store, with the
membership and other-workspace hypotheses discharged concretely. -/
theorem deleteEventMappingsForAccount_cascade_witness :
    (getEventMappings (deleteEventMappingsForAccount msW "c1" "s1") "c1" "u1"
      = (getEventMappings msW "c1" "u1").filter (fun m => decide (¬ m.google_sub = "s1"))) ∧
    ¬ (Mapping.mk "s2" "g2").google_sub = "s1" ∧
    getEventMappings (deleteEventMappingsForAccount msW "c1" "s1") "c9" "u1"
      = getEventMappings msW "c9" "u1" :=
  ⟨(deleteEventMappingsForAccount_cascade msW "c1" "s1").1 "u1",
   (deleteEventMappingsForAccount_cascade msW "c1" "s1").2.1 "u1"
     (Mapping.mk "s2" "g2") (by decide),
   (deleteEventMappingsForAccount_cascade msW "c1" "s1").2.2 "c9" "u1" (by decide)⟩

/-- C8: a connection is listed by getWorkspaceConnections exactly when a
record of the workspace is stored, not revoked, and its refresh token
decrypts, in which case it is the record decorated with the decrypted
token; and an undecryptable record is skipped without disturbing the
enumeration of every other record. -/
theorem getWorkspaceConnections_spec (aeadDec : Bytes → Bytes → Bytes → Option Bytes)
    (env : Env) :
    (∀ store chat c, c ∈ getWorkspaceConnections aeadDec env store chat ↔
      ∃ e, e ∈ store ∧ e.1.1 = chat ∧ e.2.revoked = false ∧
        ∃ tok, decryptToken aeadDec env e.2.refresh_token_enc = some tok ∧
          c = decorate e.2 tok) ∧
    (∀ s1 s2 kbad bad chat,
      decryptToken aeadDec env bad.refresh_token_enc = none →
      getWorkspaceConnections aeadDec env (s1 ++ (kbad, bad) :: s2) chat
        = getWorkspaceConnections aeadDec env (s1 ++ s2) chat) := by
  constructor
  · intro store chat c
    unfold getWorkspaceConnections
    rw [List.mem_filterMap]
    constructor
    · rintro ⟨e, he, hf⟩
      have hmem := List.mem_filter.mp he
      have hchat : e.1.1 = chat := of_decide_eq_true hmem.2
      refine ⟨e, hmem.1, hchat, ?_⟩
      unfold listBody at hf
      by_cases hrev : e.2.revoked
      · simp [hrev] at hf
      · cases hdec : decryptToken aeadDec env e.2.refresh_token_enc with
        | none => simp [hrev, hdec] at hf
        | some tok =>
          simp only [hrev, if_false, Bool.false_eq_true, hdec, Option.some.injEq] at hf
          exact ⟨by simpa using hrev, tok, rfl, hf.symm⟩
    · rintro ⟨e, he, hchat, hrev, tok, hdec, hc⟩
      refine ⟨e, List.mem_filter.mpr ⟨he, decide_eq_true hchat⟩, ?_⟩
      unfold listBody
      simp [hrev, hdec, hc]
  · intro s1 s2 kbad bad chat hdec
    have hnone : listBody aeadDec env (kbad, bad) = none := by
      unfold listBody
      by_cases hrev : bad.revoked
      · simp [hrev]
      · simp [hrev, hdec]
    unfold getWorkspaceConnections
    rw [List.filter_append, List.filter_append, List.filter_cons]
    by_cases hchat : decide (((kbad, bad) : (String × String) × ConnRec).1.1 = chat) = true
    · rw [if_pos hchat]
      rw [List.filterMap_append, List.filterMap_append, List.filterMap_cons, hnone]
    · rw [if_neg hchat]

/-- Shared tampered record for witnesses: its 1-byte blob cannot be an
authentic encryption. -/
def badRecW : ConnRec :=
  { connRecW with google_sub := "s2", refresh_token_enc := [9] }

/-- C8 witness: the characterization applied at a concrete listed
connection, and the isolation equation applied to a store holding one good
and one tampered record. -/
theorem getWorkspaceConnections_spec_witness :
    (decorate connRecW [4, 5] ∈ getWorkspaceConnections toyDec envW csW "c1" ↔
      ∃ e, e ∈ csW ∧ e.1.1 = "c1" ∧ e.2.revoked = false ∧
        ∃ tok, decryptToken toyDec envW e.2.refresh_token_enc = some tok ∧
          decorate connRecW [4, 5] = decorate e.2 tok) ∧
    getWorkspaceConnections toyDec envW (csW ++ (("c1", "s2"), badRecW) :: []) "c1"
      = getWorkspaceConnections toyDec envW (csW ++ []) "c1" :=
  ⟨(getWorkspaceConnections_spec toyDec envW).1 csW "c1" (decorate connRecW [4, 5]),
   (getWorkspaceConnections_spec toyDec envW).2 csW [] ("c1", "s2") badRecW "c1"
     (by decide)⟩

/-- C5: the code-side behavior around a missing cached credential. A record
freshly written by storeGoogleConnection carries no cached access token and
no expiry; on such a connection getValidAccessTokenForConnection performs
no refresh at all — for every possible token-endpoint response it returns
the absent cached value (null) with the store untouched, instead of
refreshing as specified. The refresh branch itself (cached credential
expiring within 60 s) does refresh, persist and return the new token. -/
theorem getValidAccessToken_skips_refresh_when_expiry_absent :
    (∀ aeadEnc env store chatId googleSub googleEmail rt scopes connectedBy iv now,
      kvGet (storeGoogleConnection aeadEnc env store chatId googleSub googleEmail rt
          scopes connectedBy iv now) (chatId, googleSub)
        = some { chat_id := chatId, google_sub := googleSub
                 google_email := strToLower googleEmail
                 refresh_token_enc := encryptToken aeadEnc env iv rt
                 scopes := scopes, revoked := false
                 connected_by_telegram_user_id := connectedBy
                 created_at := now, updated_at := now
                 access_token := none, expires_at := none }) ∧
    (∀ conn resp store now, conn.expires_at = none →
      getValidAccessTokenForConnection resp store conn now
        = Except.ok (jsOrNull conn.access_token, store)) ∧
    (∀ conn resp store now d, refreshNeeded conn now = true → resp.ok = true →
      kvGet store (conn.chat_id, conn.google_sub) = some d →
      getValidAccessTokenForConnection resp store conn now
        = Except.ok (some resp.access_token,
            kvPut store (conn.chat_id, conn.google_sub)
              { d with access_token := some resp.access_token
                       expires_at := some (now + resp.expires_in * 1000)
                       updated_at := now })) := by
  refine ⟨?_, ?_, ?_⟩
  · intro aeadEnc env store chatId googleSub googleEmail rt scopes connectedBy iv now
    exact kvGet_kvPut_self _ _ _
  · intro conn resp store now hexp
    unfold getValidAccessTokenForConnection refreshNeeded
    rw [hexp]
    simp
  · intro conn resp store now d hneed hok hd
    unfold getValidAccessTokenForConnection
    rw [hneed]
    simp only [if_true]
    unfold refreshAccessToken
    rw [hok]
    simp only [if_true]
    unfold updateConnectionAccessToken
    rw [hd]

/-- Shared concrete connection with an expiring cached token for
witnesses. -/
def connExpW : DecConn :=
  { chat_id := "c1"
    google_sub := "s1"
    google_email := "ada@example.com"
    refresh_token := [4, 5]
    scopes := "calendar.events"
    revoked := false
    connected_by_telegram_user_id := "u1"
    created_at := 0
    updated_at := 0
    access_token := some "oldTok"
    expires_at := some 50000 }

/-- Shared healthy token-endpoint response for witnesses. -/
def respOkW : RefreshResp :=
  { ok := true, status := 200, body := "", access_token := "newTok", expires_in := 3600 }

/-- C5 witness: the three branches applied at concrete inputs — the fresh
record, a no-expiry connection, and a refresh that persists. -/
theorem getValidAccessToken_skips_refresh_witness :
    kvGet (storeGoogleConnection toyEnc envW [] "c1" "s1" "Ada@Example.com" [4, 5]
        "calendar.events" "u1" ivW 0) ("c1", "s1")
      = some { chat_id := "c1", google_sub := "s1"
               google_email := strToLower "Ada@Example.com"
               refresh_token_enc := encryptToken toyEnc envW ivW [4, 5]
               scopes := "calendar.events", revoked := false
               connected_by_telegram_user_id := "u1"
               created_at := 0, updated_at := 0
               access_token := none, expires_at := none } ∧
    getValidAccessTokenForConnection respOkW csW
        { connExpW with expires_at := none } 0
      = Except.ok (jsOrNull { connExpW with expires_at := none }.access_token, csW) ∧
    getValidAccessTokenForConnection respOkW csW connExpW 49999
      = Except.ok (some respOkW.access_token,
          kvPut csW ("c1", "s1")
            { connRecW with access_token := some respOkW.access_token
                            expires_at := some (49999 + respOkW.expires_in * 1000)
                            updated_at := 49999 }) := by
  refine ⟨?_, ?_, ?_⟩
  · exact (getValidAccessToken_skips_refresh_when_expiry_absent).1 toyEnc envW [] "c1"
      "s1" "Ada@Example.com" [4, 5] "calendar.events" "u1" ivW 0
  · exact (getValidAccessToken_skips_refresh_when_expiry_absent).2.1
      { connExpW with expires_at := none } respOkW csW 0 rfl
  · exact (getValidAccessToken_skips_refresh_when_expiry_absent).2.2
      connExpW respOkW csW 49999 connRecW (by decide) rfl rfl

theorem getValid_refresh400 (resp : RefreshResp) (store : ConnStore) (conn : DecConn)
    (now : Int) (hneed : refreshNeeded conn now = true) (hok : resp.ok = false)
    (hst : resp.status = 400) :
    getValidAccessTokenForConnection resp store conn now = Except.ok (none, store) := by
  unfold getValidAccessTokenForConnection refreshAccessToken
  simp [hneed, hok, hst]

theorem getValid_refreshErr (resp : RefreshResp) (store : ConnStore) (conn : DecConn)
    (now : Int) (hneed : refreshNeeded conn now = true) (hok : resp.ok = false)
    (hst : resp.status ≠ 400) :
    getValidAccessTokenForConnection resp store conn now
      = Except.error ("Token refresh failed: " ++ resp.body) := by
  unfold getValidAccessTokenForConnection refreshAccessToken
  simp [hneed, hok, hst]

theorem createStep_refresh400 (refreshO : DecConn → RefreshResp)
    (createO : DecConn → CalResp) (conn : DecConn) (chatId uid : String) (now : Int)
    (hneed : refreshNeeded conn now = true) (hok : (refreshO conn).ok = false)
    (hst : (refreshO conn).status = 400) (cs : ConnStore) (ms : MapStore) :
    createStep refreshO createO conn chatId uid now cs ms
      = (Sum.inr { email := conn.google_email, reason := "Token refresh failed"
                   details := "Please reconnect this account" }, cs, ms) := by
  unfold createStep
  rw [getValid_refresh400 _ _ _ _ hneed hok hst]

theorem createLoop_count (refreshO : DecConn → RefreshResp) (createO : DecConn → CalResp)
    (chatId uid : String) (now : Int) :
    ∀ (conns : List DecConn) (cs : ConnStore) (ms : MapStore),
      (createLoop refreshO createO conns chatId uid now cs ms).successes.length
        + (createLoop refreshO createO conns chatId uid now cs ms).failures.length
        = conns.length := by
  intro conns
  induction conns with
  | nil => intro cs ms; simp [createLoop]
  | cons c rest ih =>
    intro cs ms
    cases hstep : createStep refreshO createO c chatId uid now cs ms with
    | mk o st =>
      cases o with
      | inl s =>
        simp only [createLoop, hstep]
        have hr := ih st.1 st.2
        simp only [List.length_cons]
        omega
      | inr f =>
        simp only [createLoop, hstep]
        have hr := ih st.1 st.2
        simp only [List.length_cons]
        omega

theorem createLoop_mem_failures (refreshO : DecConn → RefreshResp)
    (createO : DecConn → CalResp) (chatId uid : String) (now : Int)
    (conn : DecConn) (f : FailureEntry)
    (hstep : ∀ cs ms, createStep refreshO createO conn chatId uid now cs ms
      = (Sum.inr f, cs, ms)) :
    ∀ (conns : List DecConn) (cs : ConnStore) (ms : MapStore), conn ∈ conns →
      f ∈ (createLoop refreshO createO conns chatId uid now cs ms).failures := by
  intro conns
  induction conns with
  | nil => intro cs ms h; cases h
  | cons c rest ih =>
    intro cs ms h
    rcases List.mem_cons.mp h with heq | hmem
    · subst heq
      simp only [createLoop, hstep cs ms]
      exact List.mem_cons_self _ _
    · cases hs : createStep refreshO createO c chatId uid now cs ms with
      | mk o st =>
        cases o with
        | inl s =>
          simp only [createLoop, hs]
          exact ih st.1 st.2 hmem
        | inr f2 =>
          simp only [createLoop, hs]
          exact List.mem_cons_of_mem _ (ih st.1 st.2 hmem)

/-- C1: an explicit HTTP 400 rejection from the token endpoint makes
getValidAccessTokenForConnection return null instead of throwing, each
broadcast records such an account as a per-account Token refresh failed
failure while every listed account still receives exactly one outcome, and
a non-400 error response propagates as a thrown Token refresh failed
exception. -/
theorem refresh_rejection_isolated :
    (∀ resp store conn now, refreshNeeded conn now = true → resp.ok = false →
      resp.status = 400 →
      getValidAccessTokenForConnection resp store conn now = Except.ok (none, store)) ∧
    (∀ resp store conn now, refreshNeeded conn now = true → resp.ok = false →
      resp.status ≠ 400 →
      getValidAccessTokenForConnection resp store conn now
        = Except.error ("Token refresh failed: " ++ resp.body)) ∧
    (∀ aeadDec env refreshO createO cs ms chatId uid now,
      getWorkspaceConnections aeadDec env cs chatId ≠ [] →
      ∃ res cs2 ms2,
        broadcastCreateEvent aeadDec env refreshO createO cs ms chatId uid now
          = Except.ok (res, cs2, ms2) ∧
        res.successes.length + res.failures.length = res.totalAccounts ∧
        ∀ conn, conn ∈ getWorkspaceConnections aeadDec env cs chatId →
          refreshNeeded conn now = true → (refreshO conn).ok = false →
          (refreshO conn).status = 400 →
          FailureEntry.mk conn.google_email "Token refresh failed"
            "Please reconnect this account" ∈ res.failures) ∧
    (∀ aeadDec env refreshO updateO m chatId now cs conn,
      getGoogleConnection aeadDec env cs chatId m.google_sub = some conn →
      refreshNeeded conn now = true → (refreshO conn).ok = false →
      (refreshO conn).status = 400 →
      updateStep aeadDec env refreshO updateO m chatId now cs
        = (Sum.inr (FailureEntry.mk conn.google_email "Token refresh failed"
            "Please reconnect this account"), cs)) ∧
    (∀ aeadDec env refreshO deleteO m chatId uid now cs ms conn,
      getGoogleConnection aeadDec env cs chatId m.google_sub = some conn →
      refreshNeeded conn now = true → (refreshO conn).ok = false →
      (refreshO conn).status = 400 →
      deleteStep aeadDec env refreshO deleteO m chatId uid now cs ms
        = (Sum.inr (FailureEntry.mk conn.google_email "Token refresh failed"
            "Mapping will remain until reconnected"), cs, ms)) := by
  refine ⟨?_, ?_, ?_, ?_, ?_⟩
  · intro resp store conn now hneed hok hst
    exact getValid_refresh400 resp store conn now hneed hok hst
  · intro resp store conn now hneed hok hst
    exact getValid_refreshErr resp store conn now hneed hok hst
  · intro aeadDec env refreshO createO cs ms chatId uid now hne
    have hlen : (getWorkspaceConnections aeadDec env cs chatId).length ≠ 0 := by
      intro h0
      exact hne (List.length_eq_zero.mp h0)
    have heq : broadcastCreateEvent aeadDec env refreshO createO cs ms chatId uid now
        = Except.ok
          ({ successes := (createLoop refreshO createO
                (getWorkspaceConnections aeadDec env cs chatId) chatId uid now cs ms).successes
             failures := (createLoop refreshO createO
                (getWorkspaceConnections aeadDec env cs chatId) chatId uid now cs ms).failures
             totalAccounts := (getWorkspaceConnections aeadDec env cs chatId).length },
           (createLoop refreshO createO
              (getWorkspaceConnections aeadDec env cs chatId) chatId uid now cs ms).connStore,
           (createLoop refreshO createO
              (getWorkspaceConnections aeadDec env cs chatId) chatId uid now cs ms).mapStore) := by
      simp only [broadcastCreateEvent]
      rw [if_neg hlen]
    refine ⟨_, _, _, heq, ?_, ?_⟩
    · exact createLoop_count refreshO createO chatId uid now _ cs ms
    · intro conn hmem hneed hok hst
      exact createLoop_mem_failures refreshO createO chatId uid now conn _
        (fun cs2 ms2 => createStep_refresh400 refreshO createO conn chatId uid now
          hneed hok hst cs2 ms2) _ cs ms hmem
  · intro aeadDec env refreshO updateO m chatId now cs conn hconn hneed hok hst
    simp only [updateStep, hconn, getValid_refresh400 _ _ _ _ hneed hok hst]
  · intro aeadDec env refreshO deleteO m chatId uid now cs ms conn hconn hneed hok hst
    simp only [deleteStep, hconn, getValid_refresh400 _ _ _ _ hneed hok hst]

/-- Shared stored record carrying a cached token that is about to expire. -/
def connRec400 : ConnRec :=
  { connRecW with access_token := some "oldTok", expires_at := some 50000 }

/-- Shared one-record store whose connection needs a refresh. -/
def cs400 : ConnStore := [(("c1", "s1"), connRec400)]

/-- Token endpoint explicitly rejecting the refresh (HTTP 400). -/
def resp400 : RefreshResp :=
  { ok := false, status := 400, body := "invalid_grant", access_token := "", expires_in := 0 }

/-- Token endpoint failing with a server error (HTTP 500). -/
def resp500 : RefreshResp :=
  { ok := false, status := 500, body := "boom", access_token := "", expires_in := 0 }

/-- Oracle: every refresh attempt is rejected with HTTP 400. -/
def refreshO400 : DecConn → RefreshResp := fun _ => resp400

/-- Healthy calendar endpoint response. -/
def calOkW : CalResp :=
  { ok := true, status := 200, body := "", eventId := "g1", link := "l1" }

/-- Oracle: every calendar call succeeds. -/
def calOW : DecConn → CalResp := fun _ => calOkW

/-- C1 witness: the five conjuncts applied at concrete inputs — a 400
rejection yields null, a 500 propagates, and each broadcast records the
rejected account as a failure. -/
theorem refresh_rejection_isolated_witness :
    getValidAccessTokenForConnection resp400 csW connExpW 49999 = Except.ok (none, csW) ∧
    getValidAccessTokenForConnection resp500 csW connExpW 49999
      = Except.error ("Token refresh failed: " ++ resp500.body) ∧
    (∃ res cs2 ms2,
      broadcastCreateEvent toyDec envW refreshO400 calOW cs400 [] "c1" "u1" 49999
        = Except.ok (res, cs2, ms2) ∧
      res.successes.length + res.failures.length = res.totalAccounts ∧
      ∀ conn, conn ∈ getWorkspaceConnections toyDec envW cs400 "c1" →
        refreshNeeded conn 49999 = true → (refreshO400 conn).ok = false →
        (refreshO400 conn).status = 400 →
        FailureEntry.mk conn.google_email "Token refresh failed"
          "Please reconnect this account" ∈ res.failures) ∧
    updateStep toyDec envW refreshO400 calOW (Mapping.mk "s1" "g1") "c1" 49999 cs400
      = (Sum.inr (FailureEntry.mk (decorate connRec400 [4, 5]).google_email
          "Token refresh failed" "Please reconnect this account"), cs400) ∧
    deleteStep toyDec envW refreshO400 calOW (Mapping.mk "s1" "g1") "c1" "u1" 49999 cs400 msW
      = (Sum.inr (FailureEntry.mk (decorate connRec400 [4, 5]).google_email
          "Token refresh failed" "Mapping will remain until reconnected"), cs400, msW) :=
  ⟨refresh_rejection_isolated.1 resp400 csW connExpW 49999 (by decide) rfl rfl,
   refresh_rejection_isolated.2.1 resp500 csW connExpW 49999 (by decide) rfl (by decide),
   refresh_rejection_isolated.2.2.1 toyDec envW refreshO400 calOW cs400 [] "c1" "u1"
     49999 (by decide),
   refresh_rejection_isolated.2.2.2.1 toyDec envW refreshO400 calOW
     (Mapping.mk "s1" "g1") "c1" 49999 cs400 (decorate connRec400 [4, 5])
     (by decide) (by decide) rfl rfl,
   refresh_rejection_isolated.2.2.2.2 toyDec envW refreshO400 calOW
     (Mapping.mk "s1" "g1") "c1" "u1" 49999 cs400 msW (decorate connRec400 [4, 5])
     (by decide) (by decide) rfl rfl⟩

/-- C3 counterexample: a workspace with one active (non-revoked,
decryptable) connection on which broadcastUpdateEvent nevertheless raises,
because the uid has no mappings — so a broadcast can raise even when the
workspace has active accounts, contrary to the claim. -/
theorem broadcastUpdate_raises_despite_active_account :
    getWorkspaceConnections toyDec envW csW "c1" ≠ [] ∧
    broadcastUpdateEvent toyDec envW refreshO400 calOW csW [] "c1" "u1" 0
      = Except.error "Event not found or already deleted" := by
  constructor
  · decide
  · rfl

theorem updateLoop_count (aeadDec : Bytes → Bytes → Bytes → Option Bytes) (env : Env)
    (refreshO : DecConn → RefreshResp) (updateO : DecConn → CalResp)
    (chatId : String) (now : Int) :
    ∀ (maps : List Mapping) (cs : ConnStore),
      (updateLoop aeadDec env refreshO updateO maps chatId now cs).successes.length
        + (updateLoop aeadDec env refreshO updateO maps chatId now cs).failures.length
        = maps.length := by
  intro maps
  induction maps with
  | nil => intro cs; simp [updateLoop]
  | cons m rest ih =>
    intro cs
    cases hstep : updateStep aeadDec env refreshO updateO m chatId now cs with
    | mk o st =>
      cases o with
      | inl s =>
        simp only [updateLoop, hstep]
        have hr := ih st
        simp only [List.length_cons]
        omega
      | inr f =>
        simp only [updateLoop, hstep]
        have hr := ih st
        simp only [List.length_cons]
        omega

theorem deleteLoop_count (aeadDec : Bytes → Bytes → Bytes → Option Bytes) (env : Env)
    (refreshO : DecConn → RefreshResp) (deleteO : DecConn → CalResp)
    (chatId uid : String) (now : Int) :
    ∀ (maps : List Mapping) (cs : ConnStore) (ms : MapStore),
      (deleteLoop aeadDec env refreshO deleteO maps chatId uid now cs ms).successes.length
        + (deleteLoop aeadDec env refreshO deleteO maps chatId uid now cs ms).failures.length
        = maps.length := by
  intro maps
  induction maps with
  | nil => intro cs ms; simp [deleteLoop]
  | cons m rest ih =>
    intro cs ms
    cases hstep : deleteStep aeadDec env refreshO deleteO m chatId uid now cs ms with
    | mk o st =>
      cases o with
      | inl s =>
        simp only [deleteLoop, hstep]
        have hr := ih st.1 st.2
        simp only [List.length_cons]
        omega
      | inr f =>
        simp only [deleteLoop, hstep]
        have hr := ih st.1 st.2
        simp only [List.length_cons]
        omega

/-- C3 as amended: broadcastCreateEvent raises exactly when the workspace
has no active connections, and broadcastUpdateEvent/broadcastDeleteEvent
raise exactly when the uid has no mappings (even if active connections
exist); in every other case each returns a scoreboard whose totalAccounts
equals the attempted count, every attempted account receiving exactly one
success or failure, and never raises. -/
theorem broadcast_scoreboard_amended :
    (∀ aeadDec env refreshO createO cs ms chatId uid now,
      (getWorkspaceConnections aeadDec env cs chatId = [] →
        broadcastCreateEvent aeadDec env refreshO createO cs ms chatId uid now
          = Except.error "No Google accounts connected to this workspace") ∧
      (getWorkspaceConnections aeadDec env cs chatId ≠ [] →
        ∃ res st, broadcastCreateEvent aeadDec env refreshO createO cs ms chatId uid now
            = Except.ok (res, st) ∧
          res.totalAccounts = (getWorkspaceConnections aeadDec env cs chatId).length ∧
          res.successes.length + res.failures.length = res.totalAccounts)) ∧
    (∀ aeadDec env refreshO updateO cs ms chatId uid now,
      (getEventMappings ms chatId uid = [] →
        broadcastUpdateEvent aeadDec env refreshO updateO cs ms chatId uid now
          = Except.error "Event not found or already deleted") ∧
      (getEventMappings ms chatId uid ≠ [] →
        ∃ res st, broadcastUpdateEvent aeadDec env refreshO updateO cs ms chatId uid now
            = Except.ok (res, st) ∧
          res.totalAccounts = (getEventMappings ms chatId uid).length ∧
          res.successes.length + res.failures.length = res.totalAccounts)) ∧
    (∀ aeadDec env refreshO deleteO cs ms chatId uid now,
      (getEventMappings ms chatId uid = [] →
        broadcastDeleteEvent aeadDec env refreshO deleteO cs ms chatId uid now
          = Except.error "Event not found or already deleted") ∧
      (getEventMappings ms chatId uid ≠ [] →
        ∃ res st, broadcastDeleteEvent aeadDec env refreshO deleteO cs ms chatId uid now
            = Except.ok (res, st) ∧
          res.totalAccounts = (getEventMappings ms chatId uid).length ∧
          res.successes.length + res.failures.length = res.totalAccounts)) := by
  refine ⟨?_, ?_, ?_⟩
  · intro aeadDec env refreshO createO cs ms chatId uid now
    constructor
    · intro hnil
      simp only [broadcastCreateEvent, hnil]
      rfl
    · intro hne
      have hlen : (getWorkspaceConnections aeadDec env cs chatId).length ≠ 0 := by
        intro h0
        exact hne (List.length_eq_zero.mp h0)
      have heq : broadcastCreateEvent aeadDec env refreshO createO cs ms chatId uid now
          = Except.ok
            ({ successes := (createLoop refreshO createO
                  (getWorkspaceConnections aeadDec env cs chatId) chatId uid now cs ms).successes
               failures := (createLoop refreshO createO
                  (getWorkspaceConnections aeadDec env cs chatId) chatId uid now cs ms).failures
               totalAccounts := (getWorkspaceConnections aeadDec env cs chatId).length },
             (createLoop refreshO createO
                (getWorkspaceConnections aeadDec env cs chatId) chatId uid now cs ms).connStore,
             (createLoop refreshO createO
                (getWorkspaceConnections aeadDec env cs chatId) chatId uid now cs ms).mapStore) := by
        simp only [broadcastCreateEvent]
        rw [if_neg hlen]
      exact ⟨_, _, heq, rfl, createLoop_count refreshO createO chatId uid now _ cs ms⟩
  · intro aeadDec env refreshO updateO cs ms chatId uid now
    constructor
    · intro hnil
      simp only [broadcastUpdateEvent, hnil]
      rfl
    · intro hne
      have hlen : (getEventMappings ms chatId uid).length ≠ 0 := by
        intro h0
        exact hne (List.length_eq_zero.mp h0)
      have heq : broadcastUpdateEvent aeadDec env refreshO updateO cs ms chatId uid now
          = Except.ok
            ({ successes := (updateLoop aeadDec env refreshO updateO
                  (getEventMappings ms chatId uid) chatId now cs).successes
               failures := (updateLoop aeadDec env refreshO updateO
                  (getEventMappings ms chatId uid) chatId now cs).failures
               totalAccounts := (getEventMappings ms chatId uid).length },
             (updateLoop aeadDec env refreshO updateO
                (getEventMappings ms chatId uid) chatId now cs).connStore) := by
        simp only [broadcastUpdateEvent]
        rw [if_neg hlen]
      exact ⟨_, _, heq, rfl, updateLoop_count aeadDec env refreshO updateO chatId now _ cs⟩
  · intro aeadDec env refreshO deleteO cs ms chatId uid now
    constructor
    · intro hnil
      simp only [broadcastDeleteEvent, hnil]
      rfl
    · intro hne
      have hlen : (getEventMappings ms chatId uid).length ≠ 0 := by
        intro h0
        exact hne (List.length_eq_zero.mp h0)
      have heq : broadcastDeleteEvent aeadDec env refreshO deleteO cs ms chatId uid now
          = Except.ok
            ({ successes := (deleteLoop aeadDec env refreshO deleteO
                  (getEventMappings ms chatId uid) chatId uid now cs ms).successes
               failures := (deleteLoop aeadDec env refreshO deleteO
                  (getEventMappings ms chatId uid) chatId uid now cs ms).failures
               totalAccounts := (getEventMappings ms chatId uid).length },
             (deleteLoop aeadDec env refreshO deleteO
                (getEventMappings ms chatId uid) chatId uid now cs ms).connStore,
             (deleteLoop aeadDec env refreshO deleteO
                (getEventMappings ms chatId uid) chatId uid now cs ms).mapStore) := by
        simp only [broadcastDeleteEvent]
        rw [if_neg hlen]
      exact ⟨_, _, heq, rfl, deleteLoop_count aeadDec env refreshO deleteO chatId uid now _ cs ms⟩

/-- C3 witness: the amended contract applied at concrete inputs — the
empty-workspace create raises, and each broadcast on a nonempty attempt
set returns a balanced scoreboard. -/
theorem broadcast_scoreboard_amended_witness :
    broadcastCreateEvent toyDec envW refreshO400 calOW [] [] "c1" "u1" 0
      = Except.error "No Google accounts connected to this workspace" ∧
    (∃ res st, broadcastCreateEvent toyDec envW refreshO400 calOW cs400 [] "c1" "u1" 49999
        = Except.ok (res, st) ∧
      res.totalAccounts = (getWorkspaceConnections toyDec envW cs400 "c1").length ∧
      res.successes.length + res.failures.length = res.totalAccounts) ∧
    broadcastUpdateEvent toyDec envW refreshO400 calOW csW [] "c1" "u1" 0
      = Except.error "Event not found or already deleted" ∧
    (∃ res st, broadcastUpdateEvent toyDec envW refreshO400 calOW cs400 msW "c1" "u1" 49999
        = Except.ok (res, st) ∧
      res.totalAccounts = (getEventMappings msW "c1" "u1").length ∧
      res.successes.length + res.failures.length = res.totalAccounts) ∧
    (∃ res st, broadcastDeleteEvent toyDec envW refreshO400 calOW cs400 msW "c1" "u1" 49999
        = Except.ok (res, st) ∧
      res.totalAccounts = (getEventMappings msW "c1" "u1").length ∧
      res.successes.length + res.failures.length = res.totalAccounts) :=
  ⟨(broadcast_scoreboard_amended.1 toyDec envW refreshO400 calOW [] [] "c1" "u1" 0).1 rfl,
   (broadcast_scoreboard_amended.1 toyDec envW refreshO400 calOW cs400 [] "c1" "u1" 49999).2
     (by decide),
   (broadcast_scoreboard_amended.2.1 toyDec envW refreshO400 calOW csW [] "c1" "u1" 0).1 rfl,
   (broadcast_scoreboard_amended.2.1 toyDec envW refreshO400 calOW cs400 msW "c1" "u1" 49999).2
     (by decide),
   (broadcast_scoreboard_amended.2.2 toyDec envW refreshO400 calOW cs400 msW "c1" "u1" 49999).2
     (by decide)⟩

theorem getValid_noRefresh (resp : RefreshResp) (store : ConnStore) (conn : DecConn)
    (now : Int) (h : refreshNeeded conn now = false) :
    getValidAccessTokenForConnection resp store conn now
      = Except.ok (jsOrNull conn.access_token, store) := by
  unfold getValidAccessTokenForConnection
  simp [h]

/-- Stored record holding a valid cached token far from expiry. -/
def connRecFresh : ConnRec :=
  { connRecW with access_token := some "tok", expires_at := some 1000000 }

/-- One-record store whose connection needs no refresh. -/
def csFresh : ConnStore := [(("c1", "s1"), connRecFresh)]

/-- Mapping store holding the single mapping of event u1 to account s1. -/
def msU : MapStore :=
  [(("c1", "u1", "s1"),
    { chat_id := "c1", bot_event_uid := "u1", google_sub := "s1"
      google_event_id := "g1", created_at := 0, updated_at := 0 })]

/-- Calendar endpoint answering 404 with a body that does not spell 404. -/
def cal404plain : CalResp :=
  { ok := false, status := 404, body := "Not Found", eventId := "", link := "" }

/-- Oracle: every delete call gets the plain 404. -/
def calO404plain : DecConn → CalResp := fun _ => cal404plain

/-- C6 counterexample: a remote delete answered 404 whose body text does
not contain the digits 404 is counted as a FAILURE (reason Exception) and
the mapping is kept, contradicting the claim that every not-found response
counts as succeeded with the mapping removed. -/
theorem delete404_plain_counted_failed :
    broadcastDeleteEvent toyDec envW refreshO400 calO404plain csFresh msU "c1" "u1" 0
      = Except.ok
        ({ successes := []
           failures := [FailureEntry.mk "(s1)" "Exception" "Calendar API error: Not Found"]
           totalAccounts := 1 }, csFresh, msU) ∧
    getEventMappings msU "c1" "u1" = [Mapping.mk "s1" "g1"] := by
  constructor
  · rfl
  · rfl

/-- C6 as amended: during a delete broadcast, for a mapping whose account
connection is active with a usable cached token, a remote delete answered
410 counts as SUCCEEDED and removes the mapping; a non-OK non-410 answer
(such as 404) counts as SUCCEEDED with the mapping removed exactly when
the thrown message Calendar API error: body contains the substring 404 or
410, and otherwise is recorded as a FAILURE with the mapping kept; with a
single such 410-answered mapping the whole broadcast returns one success
and the mapping store without it. -/
theorem delete_already_gone_amended
    (aeadDec : Bytes → Bytes → Bytes → Option Bytes) (env : Env)
    (refreshO : DecConn → RefreshResp) (deleteO : DecConn → CalResp)
    (m : Mapping) (chatId uid : String) (now : Int) (cs : ConnStore) (ms : MapStore)
    (conn : DecConn) (tok : String)
    (hconn : getGoogleConnection aeadDec env cs chatId m.google_sub = some conn)
    (hneed : refreshNeeded conn now = false)
    (htok : jsOrNull conn.access_token = some tok) :
    ((deleteO conn).ok = false → (deleteO conn).status = 410 →
      deleteStep aeadDec env refreshO deleteO m chatId uid now cs ms
        = (Sum.inl (SuccessEntry.mk conn.google_email (some m.google_event_id) none),
           cs, deleteEventMapping ms chatId uid (some m.google_sub))) ∧
    ((deleteO conn).ok = false → (deleteO conn).status ≠ 410 →
      (strIncludes ("Calendar API error: " ++ (deleteO conn).body) "404"
        || strIncludes ("Calendar API error: " ++ (deleteO conn).body) "410") = true →
      deleteStep aeadDec env refreshO deleteO m chatId uid now cs ms
        = (Sum.inl (SuccessEntry.mk ("(" ++ m.google_sub ++ ")") none
            (some "Already deleted")),
           cs, deleteEventMapping ms chatId uid (some m.google_sub))) ∧
    ((deleteO conn).ok = false → (deleteO conn).status ≠ 410 →
      (strIncludes ("Calendar API error: " ++ (deleteO conn).body) "404"
        || strIncludes ("Calendar API error: " ++ (deleteO conn).body) "410") = false →
      deleteStep aeadDec env refreshO deleteO m chatId uid now cs ms
        = (Sum.inr (FailureEntry.mk ("(" ++ m.google_sub ++ ")") "Exception"
            ("Calendar API error: " ++ (deleteO conn).body)), cs, ms)) ∧
    (getEventMappings ms chatId uid = [m] → (deleteO conn).ok = false →
      (deleteO conn).status = 410 →
      broadcastDeleteEvent aeadDec env refreshO deleteO cs ms chatId uid now
        = Except.ok
          ({ successes := [SuccessEntry.mk conn.google_email (some m.google_event_id) none]
             failures := []
             totalAccounts := 1 },
           cs, deleteEventMapping ms chatId uid (some m.google_sub))) := by
  have h410step : (deleteO conn).ok = false → (deleteO conn).status = 410 →
      deleteStep aeadDec env refreshO deleteO m chatId uid now cs ms
        = (Sum.inl (SuccessEntry.mk conn.google_email (some m.google_event_id) none),
           cs, deleteEventMapping ms chatId uid (some m.google_sub)) := by
    intro hok h410
    simp only [deleteStep, hconn, getValid_noRefresh _ _ _ _ hneed, htok]
    simp [deleteEvent, hok, h410]
  refine ⟨h410step, ?_, ?_, ?_⟩
  · intro hok h410 hinc
    simp only [deleteStep, hconn, getValid_noRefresh _ _ _ _ hneed, htok]
    simp [deleteEvent, hok, h410, deleteCatch, hinc]
  · intro hok h410 hinc
    simp only [deleteStep, hconn, getValid_noRefresh _ _ _ _ hneed, htok]
    simp only [Bool.or_eq_false_iff] at hinc
    simp [deleteEvent, hok, h410, deleteCatch, hinc.1, hinc.2]
  · intro hms hok h410
    simp only [broadcastDeleteEvent, hms]
    rw [if_neg (by simp)]
    simp only [deleteLoop, h410step hok h410]
    rfl

/-- Calendar endpoint answering 410 Gone. -/
def cal410 : CalResp :=
  { ok := false, status := 410, body := "Gone", eventId := "", link := "" }

/-- Oracle: every delete call gets the 410. -/
def calO410 : DecConn → CalResp := fun _ => cal410

/-- Calendar endpoint answering 404 with a body spelling the code. -/
def cal404coded : CalResp :=
  { ok := false, status := 404, body := "code 404", eventId := "", link := "" }

/-- Oracle: every delete call gets the coded 404. -/
def calO404coded : DecConn → CalResp := fun _ => cal404coded

/-- C6 witness: the amended delete rules applied at concrete inputs — a
410 succeeds and removes the mapping (per account and for the whole
broadcast), a 404 spelling its code succeeds, and a 404 without it fails
keeping the mapping. -/
theorem delete_already_gone_amended_witness :
    deleteStep toyDec envW refreshO400 calO410 (Mapping.mk "s1" "g1") "c1" "u1" 0 csFresh msU
      = (Sum.inl (SuccessEntry.mk (decorate connRecFresh [4, 5]).google_email
          (some "g1") none),
         csFresh, deleteEventMapping msU "c1" "u1" (some "s1")) ∧
    deleteStep toyDec envW refreshO400 calO404coded (Mapping.mk "s1" "g1") "c1" "u1" 0 csFresh msU
      = (Sum.inl (SuccessEntry.mk "(s1)" none (some "Already deleted")),
         csFresh, deleteEventMapping msU "c1" "u1" (some "s1")) ∧
    deleteStep toyDec envW refreshO400 calO404plain (Mapping.mk "s1" "g1") "c1" "u1" 0 csFresh msU
      = (Sum.inr (FailureEntry.mk "(s1)" "Exception" "Calendar API error: Not Found"),
         csFresh, msU) ∧
    broadcastDeleteEvent toyDec envW refreshO400 calO410 csFresh msU "c1" "u1" 0
      = Except.ok
        ({ successes := [SuccessEntry.mk (decorate connRecFresh [4, 5]).google_email
             (some "g1") none]
           failures := []
           totalAccounts := 1 },
         csFresh, deleteEventMapping msU "c1" "u1" (some "s1")) :=
  ⟨(delete_already_gone_amended toyDec envW refreshO400 calO410 (Mapping.mk "s1" "g1")
      "c1" "u1" 0 csFresh msU (decorate connRecFresh [4, 5]) "tok"
      (by decide) (by decide) rfl).1 rfl rfl,
   (delete_already_gone_amended toyDec envW refreshO400 calO404coded (Mapping.mk "s1" "g1")
      "c1" "u1" 0 csFresh msU (decorate connRecFresh [4, 5]) "tok"
      (by decide) (by decide) rfl).2.1 rfl (by decide) (by decide),
   (delete_already_gone_amended toyDec envW refreshO400 calO404plain (Mapping.mk "s1" "g1")
      "c1" "u1" 0 csFresh msU (decorate connRecFresh [4, 5]) "tok"
      (by decide) (by decide) rfl).2.2.1 rfl (by decide) (by decide),
   (delete_already_gone_amended toyDec envW refreshO400 calO410 (Mapping.mk "s1" "g1")
      "c1" "u1" 0 csFresh msU (decorate connRecFresh [4, 5]) "tok"
      (by decide) (by decide) rfl).2.2.2 rfl rfl rfl⟩

/-- Concrete keyed MAC for evaluating the handshake: a constant tag (the
handshake theorems only need that verification recomputes the same tag). -/
def hmacW : String → String → String := fun _ _ => "deadbeef"

/-- The state token issued for chat 12345 by user 42 in a private chat. -/
def stateW : String :=
  (generateOAuthUrl hmacW envW "12345" "42" "private" "aaaa" []).1

/-- C2: code-side evaluation of the handshake. Issuing a token writes no
oauth_state existence marker (the store is returned untouched), the issued
token's signature is structurally valid, and therefore the very FIRST
verification of the issued token already fails with Invalid or expired
authorization state — the claim's first-verify-succeeds half is broken by
the code, while the no-marker-never-succeeds and single-use halves hold:
with a marker present verification succeeds and deletes it, after which a
replay fails. -/
theorem issued_state_first_verification_fails :
    (generateOAuthUrl hmacW envW "12345" "42" "private" "aaaa" []).2 = [] ∧
    parseAndVerifyState hmacW stateW envW.stateSecret
      = some (StateData.mk "12345" "42" "private" "aaaa") ∧
    verifyOAuthCallbackState hmacW envW
      (generateOAuthUrl hmacW envW "12345" "42" "private" "aaaa" []).2 stateW 0
      = Except.error "Invalid or expired authorization state" ∧
    verifyOAuthCallbackState hmacW envW [(stateW, StateRec.mk 0)] stateW 100
      = Except.ok (StateData.mk "12345" "42" "private" "aaaa", []) ∧
    verifyOAuthCallbackState hmacW envW [] stateW 100
      = Except.error "Invalid or expired authorization state" := by
  refine ⟨rfl, ?_, ?_, ?_, ?_⟩
  · decide
  · rfl
  · rfl
  · rfl
